import Mathlib

/-!
Verification of the data-warden backend request-processing core.

The definitions below are a shallow embedding of the Go backend:
the metadata cache (`getFromCache` / `setCache` / `setCacheWithTTL`),
the SQL limit/offset shaping and the cancellable query-execution
pipeline (`ExecuteQueryWithContext`), the binary-UUID decoding
heuristic (`looksLikeUUID`), the running-query registry
(`handleExecuteQuery` / `handleCancelQuery`), the system-schema
fan-out (`handleListAllTables`), and connection establishment
(`NewConnection` / `handleConnect`).

External effects are modelled explicitly: wall-clock instants and
durations are integer nanosecond counts passed as parameters, the
database driver is an oracle function from the dispatched SQL text to
a driver outcome, context cancellation is a monotone flag indexed by
the order of the `ctx.Err()` observation points, and JSON parameter
decoding is an `Except` value supplied by the caller (decoding itself
is done by the language runtime in the original program).  Go strings
holding raw column bytes are modelled as lists of byte values so that
the byte-preserving `string(b)` conversion is the identity.
-/

namespace DataWarden

/-! ## Time

Durations and timestamps are integer nanosecond counts, as in Go's
`time.Duration` / `time.Time`. -/

/-- One second, in nanoseconds (`time.Second`). -/
def second : Int := 1000000000

/-- One minute, in nanoseconds (`time.Minute`). -/
def minute : Int := 60 * second

/-! ## Metadata cache (server.go `cacheEntry`, `getFromCache`, `setCache`,
`setCacheWithTTL`) -/

/-- Cache entry: stored data, the `time.Now()` instant recorded at store
time, and the entry's TTL (`0` meaning "use the default"). -/
structure cacheEntry (α : Type) where
  data : α
  timestamp : Int
  ttl : Int
deriving DecidableEq

/-- The server's metadata cache, keyed by strings.  The Go map stores
`interface{}` values; each handler reads back the type it stored, so the
cache is modelled with the stored value type as a parameter. -/
def Cache (α : Type) : Type := String → Option (cacheEntry α)

/-- The empty cache (`make(map[string]cacheEntry)`). -/
def Cache.empty (α : Type) : Cache α := fun _ => none

/-- `getFromCache` retrieves cached data if it exists and is not expired.
Expiry check: the entry's TTL (or the 30-second default when the entry
was stored with `ttl == 0`) is compared against `now - timestamp`. -/
def getFromCache {α : Type} (cache : Cache α) (now : Int) (key : String) : Option α :=
  match cache key with
  | none => none
  | some entry =>
    let ttl := if entry.ttl = 0 then 30 * second else entry.ttl
    if now - entry.timestamp > ttl then none else some entry.data

/-- `setCacheWithTTL` stores data with the current timestamp and a custom
TTL. -/
def setCacheWithTTL {α : Type} (cache : Cache α) (now : Int) (key : String)
    (data : α) (ttl : Int) : Cache α :=
  fun k => if k = key then some ⟨data, now, ttl⟩ else cache k

/-- `setCache` stores data with the default TTL (`ttl = 0` means "use the
default" at lookup time). -/
def setCache {α : Type} (cache : Cache α) (now : Int) (key : String) (data : α) : Cache α :=
  setCacheWithTTL cache now key data 0

/-- `invalidateCache` removes cache entries whose key starts with the given
prefix (defined in the source but not reached from any handler). -/
def invalidateCache {α : Type} (cache : Cache α) (pre : String) : Cache α :=
  fun k => if pre.data.isPrefixOf k.data then none else cache k

/-! ## Column values and the binary-UUID heuristic (connection.go
`looksLikeUUID` and the byte-slice conversion in
`ExecuteQueryWithContext`) -/

/-- A scalar cell value as handed over by the database driver.  Only
byte-slice values (`[]byte`) are transformed by the result pipeline;
every other driver value is passed through unchanged.  A Go string is a
byte string, so both `bytes` and `str` carry lists of byte values. -/
inductive Value where
  | bytes (b : List Nat)
  | str (s : List Nat)
  | int (n : Int)
  | null
deriving DecidableEq

/-- Printable-ASCII test used by the UUID heuristic (`v >= 32 && v <= 126`). -/
def isPrintable (v : Nat) : Bool := decide (32 ≤ v) && decide (v ≤ 126)

/-- `looksLikeUUID` checks whether a 16-byte slice looks like a binary
UUID: it must have exactly 16 bytes, not be all zeros, and have at most
12 printable-ASCII bytes. -/
def looksLikeUUID (b : List Nat) : Bool :=
  if b.length ≠ 16 then false
  else if b.all (fun v => v == 0) then false
  else if 12 < b.countP isPrintable then false
  else true

/-- One lowercase hexadecimal digit as an ASCII byte value, as printed by
Go's `%x` verb. -/
def hexDigitByte (n : Nat) : Nat := if n < 10 then 48 + n else 87 + n

/-- Lowercase hex rendering of a byte string as ASCII byte values — two
digits per byte, as produced by `fmt.Sprintf("%x", b)`. -/
def bytesHex : List Nat → List Nat
  | [] => []
  | v :: rest => hexDigitByte (v / 16 % 16) :: hexDigitByte (v % 16) :: bytesHex rest

/-- Hyphenated 8-4-4-4-12 regrouping of the 32-character hex string of a
16-byte value, as built from `hex[0:8]` … `hex[20:32]` in the source
(`45` is the ASCII hyphen). -/
def binaryToUUID (b : List Nat) : List Nat :=
  let hex := bytesHex b
  hex.take 8 ++ 45 :: ((hex.drop 8).take 4) ++ 45 :: ((hex.drop 12).take 4)
    ++ 45 :: ((hex.drop 16).take 4) ++ 45 :: ((hex.drop 20).take 12)

/-- Byte-slice conversion applied to each column value of each fetched
row: a 16-byte slice that looks like a UUID is rendered as the
hyphenated hex string; any other byte slice becomes the Go string of the
same bytes; non-byte values pass through. -/
def decodeColumn : Value → Value
  | .bytes b =>
    if b.length = 16 && looksLikeUUID b then .str (binaryToUUID b)
    else .str b
  | v => v

/-! ## Query execution (connection.go `ExecuteQueryWithContext`) -/

/-- Query request parameters (protocol.QueryRequest). -/
structure QueryRequest where
  connectionId : String
  sql : String
  limit : Int
  offset : Int
deriving DecidableEq

/-- Query result (protocol.QueryResult). -/
structure QueryResult where
  columns : List String
  rows : List (List Value)
  rowsAffected : Int
  executionTime : Int
  totalRows : Int
deriving DecidableEq

/-- The `LIMIT` / `OFFSET` shaping applied to the SQL text before it is
handed to the driver: a positive limit appends ` LIMIT n`, and then a
positive offset additionally appends ` OFFSET m`; otherwise the text is
left untouched. -/
def appliedSQL (sqlQuery : String) (limit offset : Int) : String :=
  if limit > 0 then
    let withLimit := sqlQuery ++ " LIMIT " ++ toString limit
    if offset > 0 then withLimit ++ " OFFSET " ++ toString offset
    else withLimit
  else sqlQuery

/-- Rows handle returned by a successful `QueryContext` call: the
`rows.Columns()` outcome, the raw rows the driver will yield, and the
`rows.Err()` value observed after iteration. -/
structure DriverRows where
  columnsResult : Except String (List String)
  rawRows : List (List Value)
  finalErr : Option String

/-- Outcome of handing a SQL string to `db.QueryContext`. -/
inductive DriverResult where
  | err (msg : String)
  | rows (r : DriverRows)

/-- Monotone cancellation signal for one execution context: `cancelAt =
some k` means `ctx.Err()` is non-nil from the k-th observation point
onwards (observation points are numbered in the order the source
consults `ctx.Err()`); `none` means the context is never cancelled. -/
def ctxCancelled (cancelAt : Option Nat) (step : Nat) : Bool :=
  match cancelAt with
  | none => false
  | some k => decide (k ≤ step)

/-- Message text of `context.Canceled`, wrapped by the cancellation
errors. -/
def contextCanceledMsg : String := "context canceled"

/-- `rows.Scan` into `len(columnNames)` destinations: succeeds exactly
when the raw row has one value per column, and then applies the
byte-slice conversion to each value. -/
def scanRow (columnNames : List String) (raw : List Value) : Except String (List Value) :=
  if raw.length = columnNames.length then .ok (raw.map decodeColumn)
  else .error ("sql: expected " ++ toString columnNames.length
    ++ " destination arguments in Scan, not " ++ toString raw.length)

/-- The row-fetch loop: before each row the context is consulted
(observation points `2 + i` for the i-th row overall), then the row is
scanned and converted; any error aborts the loop. -/
def fetchRows (cancelAt : Option Nat) (columnNames : List String) :
    List (List Value) → Nat → Except String (List (List Value))
  | [], _ => .ok []
  | raw :: rest, i =>
    if ctxCancelled cancelAt (2 + i) then
      .error ("query cancelled during fetch: " ++ contextCanceledMsg)
    else
      match scanRow columnNames raw with
      | .error e => .error ("failed to scan row: " ++ e)
      | .ok row =>
        match fetchRows cancelAt columnNames rest (i + 1) with
        | .error e => .error e
        | .ok rows => .ok (row :: rows)

/-- Result of one `ExecuteQueryWithContext` call together with the SQL
text actually handed to the driver (`none` when the query was never
issued because the context was already cancelled). -/
structure ExecOutcome where
  response : Except String QueryResult
  dispatched : Option String

/-- Everything `ExecuteQueryWithContext` does from the `db.QueryContext`
call onwards, for the already-shaped SQL text `q`: issue the query, map
a driver error to a cancellation error when the context is cancelled
(observation point 1), then fetch, scan and convert rows (observation
points 2, 3, …), and finally consult `rows.Err()` and fill in the
row-count fields.  `elapsedMs` stands for the measured wall-clock
execution time. -/
def runDispatchedQuery (cancelAt : Option Nat) (q : String)
    (driver : String → DriverResult) (elapsedMs : Int) : Except String QueryResult :=
  match driver q with
  | .err e =>
    if ctxCancelled cancelAt 1 then
      .error ("query cancelled: " ++ contextCanceledMsg)
    else
      .error ("failed to execute query: " ++ e)
  | .rows r =>
    match r.columnsResult with
    | .error e => .error ("failed to get columns: " ++ e)
    | .ok columnNames =>
      match fetchRows cancelAt columnNames r.rawRows 0 with
      | .error e => .error e
      | .ok rows =>
        match r.finalErr with
        | some e => .error ("error iterating rows: " ++ e)
        | none =>
          .ok { columns := columnNames, rows := rows,
                rowsAffected := Int.ofNat rows.length,
                executionTime := elapsedMs,
                totalRows := Int.ofNat rows.length }

/-- `ExecuteQueryWithContext`: check the context before issuing the query
(observation point 0), shape the SQL with limit/offset, and run the
dispatched query. -/
def ExecuteQueryWithContext (cancelAt : Option Nat) (sqlQuery : String)
    (limit offset : Int) (driver : String → DriverResult) (elapsedMs : Int) :
    ExecOutcome :=
  if ctxCancelled cancelAt 0 then
    ⟨.error ("query cancelled before execution: " ++ contextCanceledMsg), none⟩
  else
    let q := appliedSQL sqlQuery limit offset
    ⟨runDispatchedQuery cancelAt q driver elapsedMs, some q⟩

/-! ## Cancellation marker vocabulary -/

/-- Boolean "pattern leads the list" test on character lists. -/
def strLeads : List Char → List Char → Bool
  | [], _ => true
  | _ :: _, [] => false
  | p :: ps, c :: cs => p == c && strLeads ps cs

/-- A message carries the cancellation marker when it starts with the
text `query cancelled`. -/
def hasCancelMarker (e : String) : Bool := strLeads "query cancelled".data e.data

/-! ## Assoc-list maps

Go's maps keyed by strings are modelled as association lists; a newer
binding shadows an older one, and deletion removes every binding of the
key. -/

/-- Lookup in an association list (Go map indexing). -/
def mapLookup {α : Type} : List (String × α) → String → Option α
  | [], _ => none
  | (k2, v) :: rest, k => if k2 = k then some v else mapLookup rest k

/-- Map assignment `m[k] = v`. -/
def mapInsert {α : Type} (m : List (String × α)) (k : String) (v : α) :
    List (String × α) := (k, v) :: m

/-- Map deletion `delete(m, k)`. -/
def mapDelete {α : Type} (m : List (String × α)) (k : String) :
    List (String × α) := m.filter (fun p => decide (p.1 ≠ k))

/-! ## Running-query registry (server.go `queryContext`,
`handleExecuteQuery`, `handleCancelQuery`) -/

/-- Per-query record: the cancellation handle (identified by the id of
the execution context it cancels) and the original SQL text. -/
structure queryContext where
  ctxId : Nat
  sql : String
deriving DecidableEq

/-- The running-queries map. -/
abbrev RunningQueries := List (String × queryContext)

/-- Observable events of one `handleExecuteQuery` call, in order. -/
inductive QueryEvent where
  | register (requestId : String) (sql : String)
  | issue (sql : String)
  | deregister (requestId : String)
deriving DecidableEq

/-- Result of one `handleExecuteQuery` call: the handler's return value,
the running-queries map after the deferred cleanup ran, and the ordered
registry/driver events of the call. -/
structure ExecCall where
  response : Except String QueryResult
  finalQueries : RunningQueries
  events : List QueryEvent

/-- `handleExecuteQuery`: decode the parameters, look up the connection,
register the query under the caller-supplied request id together with a
fresh cancellable context, run the query, and unconditionally remove
the registration via the deferred cleanup.  `decoded` is the outcome of
`json.Unmarshal`, `ctxId` identifies the fresh `context.WithCancel`
context, `cancelAt`/`driver`/`elapsedMs` model the execution
environment as in `ExecuteQueryWithContext`. -/
def handleExecuteQuery (connections : List (String × Nat)) (running : RunningQueries)
    (requestID : String) (decoded : Except String QueryRequest) (ctxId : Nat)
    (cancelAt : Option Nat) (driver : String → DriverResult) (elapsedMs : Int) :
    ExecCall :=
  match decoded with
  | .error e => ⟨.error ("invalid parameters: " ++ e), running, []⟩
  | .ok req =>
    match mapLookup connections req.connectionId with
    | none => ⟨.error ("connection not found: " ++ req.connectionId), running, []⟩
    | some _ =>
      let registered := mapInsert running requestID ⟨ctxId, req.sql⟩
      let exec := ExecuteQueryWithContext cancelAt req.sql req.limit req.offset driver elapsedMs
      ⟨exec.response, mapDelete registered requestID,
        QueryEvent.register requestID req.sql ::
          ((match exec.dispatched with
            | some q => [QueryEvent.issue q]
            | none => []) ++ [QueryEvent.deregister requestID])⟩

/-- `handleCancelQuery`: decode the request id, look it up among the
running queries; an absent id is an error, a present one has its
context's cancel function invoked (recorded by adding the context id to
the list of cancelled contexts) and the handler returns success. -/
def handleCancelQuery (running : RunningQueries) (cancelled : List Nat)
    (decoded : Except String String) : Except String Unit × List Nat :=
  match decoded with
  | .error e => (.error ("invalid parameters: " ++ e), cancelled)
  | .ok requestId =>
    match mapLookup running requestId with
    | none => (.error ("query not found or already completed: " ++ requestId), cancelled)
    | some queryCtx => (.ok (), queryCtx.ctxId :: cancelled)

/-! ## Dispatcher error codes and response shaping (protocol/types.go,
server.go `HandleRequest`) -/

/-- Reserved JSON-RPC parse-error code. -/
def ParseError : Int := -32700

/-- Reserved JSON-RPC invalid-request code. -/
def InvalidRequest : Int := -32600

/-- Reserved JSON-RPC method-not-found code. -/
def MethodNotFound : Int := -32601

/-- Reserved JSON-RPC invalid-params code. -/
def InvalidParams : Int := -32602

/-- Reserved JSON-RPC internal-error code. -/
def InternalError : Int := -32603

/-- A dispatcher response: either a success result or a coded error. -/
inductive RPCOutcome where
  | success
  | failure (code : Int) (message : String)
deriving DecidableEq

/-- The `cancelQuery` arm of `HandleRequest`: a handler error becomes an
internal-error-coded response, otherwise the result is
`{"success": true}`. -/
def handleRequestCancelQuery (running : RunningQueries) (cancelled : List Nat)
    (decoded : Except String String) : RPCOutcome × List Nat :=
  match handleCancelQuery running cancelled decoded with
  | (.error e, c) => (.failure InternalError e, c)
  | (.ok _, c) => (.success, c)

/-! ## Schema descriptors and the all-tables fan-out (protocol/types.go,
server.go `handleListAllTables`) -/

/-- Database descriptor (protocol.Database). -/
structure Database where
  name : String
deriving DecidableEq

/-- Table descriptor (protocol.Table). -/
structure Table where
  name : String
  rowCount : Int
  engine : String
  dataLength : Int
  indexLength : Int
deriving DecidableEq

/-- The fixed system-schema deny-list, matched case-sensitively. -/
def systemDatabases : List String :=
  ["information_schema", "mysql", "performance_schema", "sys"]

/-- The fan-out loop of `handleListAllTables`: for each reported database
in order, skip it when its name is on the system deny-list, skip it when
listing its tables fails (the failure is only logged), and otherwise add
its table list to the aggregate under its name. -/
def listAllTablesFanout (listTables : String → Except String (List Table)) :
    List Database → List (String × List Table)
  | [] => []
  | db :: rest =>
    if systemDatabases.contains db.name then listAllTablesFanout listTables rest
    else
      match listTables db.name with
      | .error _ => listAllTablesFanout listTables rest
      | .ok tables => (db.name, tables) :: listAllTablesFanout listTables rest

/-- `handleListAllTables`: decode the connection id, consult the cache,
look up the connection, list the databases (a failure here fails the
whole call), run the fan-out, and cache the aggregate with a 5-minute
TTL.  `decoded` is the `json.Unmarshal` outcome; `listDatabasesResult`
and `listTables` model the two introspection calls on the connection. -/
def handleListAllTables (cache : Cache (List (String × List Table))) (now : Int)
    (decoded : Except String String) (connections : List (String × Nat))
    (listDatabasesResult : Except String (List Database))
    (listTables : String → Except String (List Table)) :
    Except String (List (String × List Table)) × Cache (List (String × List Table)) :=
  match decoded with
  | .error e => (.error ("invalid parameters: " ++ e), cache)
  | .ok connectionId =>
    let cacheKey := "listAllTables:" ++ connectionId
    match getFromCache cache now cacheKey with
    | some allTables => (.ok allTables, cache)
    | none =>
      match mapLookup connections connectionId with
      | none => (.error ("connection not found: " ++ connectionId), cache)
      | some _ =>
        match listDatabasesResult with
        | .error e => (.error ("failed to list databases: " ++ e), cache)
        | .ok databases =>
          let allTables := listAllTablesFanout listTables databases
          (.ok allTables, setCacheWithTTL cache now cacheKey allTables (5 * minute))

/-! ## Connection establishment (connection.go `NewConnection`,
server.go `handleConnect`) -/

/-- Connection descriptor (protocol.ConnectionConfig). -/
structure ConnectionConfig where
  id : String
  name : String
  type : String
  host : String
  port : Int
  username : String
  password : String
  database : String
  ssl : Bool
deriving DecidableEq

/-- Helper for the substring test: does `sub` occur in the list? -/
def occursIn (sub : List Char) : List Char → Bool
  | [] => sub.isEmpty
  | c :: rest => sub.isPrefixOf (c :: rest) || occursIn sub rest

/-- Boolean substring test (`strings.Contains`). -/
def containsSub (s sub : String) : Bool := occursIn sub.data s.data

/-- Host rewrite: the loopback alias is replaced by the literal IPv4
loopback address before dialing. -/
def effHost (host : String) : String :=
  if host = "localhost" then "127.0.0.1" else host

/-- Classification of a failed liveness ping into an actionable message,
by substring matching on the driver error text; unmatched errors fall
through to a generic wrapped message. -/
def classifyPingError (errMsg host : String) (port : Int)
    (username database : String) : String :=
  if containsSub errMsg "connection refused" then
    "connection refused: MySQL server is not running on " ++ host ++ ":"
      ++ toString port ++ ", or the port is blocked by a firewall"
  else if containsSub errMsg "Access denied" then
    "access denied: incorrect username \x27" ++ username
      ++ "\x27 or password. Check your credentials"
  else if containsSub errMsg "Unknown database" then
    "unknown database \x27" ++ database
      ++ "\x27: the database does not exist. Create it first or use a different database name"
  else if containsSub errMsg "timeout" then
    "connection timeout: could not reach " ++ host ++ ":" ++ toString port
      ++ " within 30 seconds. Check network connectivity"
  else "failed to connect to database: " ++ errMsg

/-- The dial environment of one `NewConnection` call: the `sql.Open`
outcome and the `db.Ping` outcome (`none` = success). -/
structure DialEnv where
  openError : Option String
  pingError : Option String

/-- `NewConnection`: reject non-MySQL driver types, rewrite the loopback
alias, open the handle, and verify liveness with a ping; a ping failure
closes the new handle and returns a classified error.  `handle`
identifies the freshly opened pooled handle. -/
def NewConnection (config : ConnectionConfig) (env : DialEnv) (handle : Nat) :
    Except String Nat :=
  if config.type ≠ "mysql" then
    .error ("unsupported database type: " ++ config.type)
  else
    let host := effHost config.host
    match env.openError with
    | some e =>
      .error ("failed to connect to MySQL: " ++ e ++ ". Check that host \x27"
        ++ config.host ++ "\x27 and port " ++ toString config.port ++ " are correct")
    | none =>
      match env.pingError with
      | some e =>
        .error (classifyPingError e host config.port config.username config.database)
      | none => .ok handle

/-- Result of one `handleConnect` call: the handler's return value, the
connection registry afterwards, and the handles whose `Close` was
invoked during the call. -/
structure ConnectCall where
  result : Except String Unit
  connections : List (String × Nat)
  closed : List Nat

/-- `handleConnect`: decode the descriptor, open and ping a new handle
via `NewConnection`, and only on success close any existing handle for
the same id and install the new one. -/
def handleConnect (connections : List (String × Nat))
    (decoded : Except String ConnectionConfig) (env : DialEnv) (newHandle : Nat) :
    ConnectCall :=
  match decoded with
  | .error e => ⟨.error ("invalid parameters: " ++ e), connections, []⟩
  | .ok config =>
    match NewConnection config env newHandle with
    | .error e => ⟨.error e, connections, []⟩
    | .ok h =>
      let closed :=
        match mapLookup connections config.id with
        | some oldHandle => [oldHandle]
        | none => []
      ⟨.ok (), mapInsert connections config.id h, closed⟩

/-- The `connect` arm of `HandleRequest`: a handler error becomes an
internal-error-coded response, otherwise the result is
`{"success": true}`. -/
def handleRequestConnect (connections : List (String × Nat))
    (decoded : Except String ConnectionConfig) (env : DialEnv) (newHandle : Nat) :
    RPCOutcome × List (String × Nat) :=
  match handleConnect connections decoded env newHandle with
  | call =>
    match call.result with
    | .error e => (.failure InternalError e, call.connections)
    | .ok _ => (.success, call.connections)

end DataWarden

namespace DataWarden

/-- Claim C1: for every cache key, a `get` performed strictly more than
`ttl` nanoseconds after the corresponding `set` returns a miss, and a
`get` at or before `ttl` returns exactly the value passed to `set`; an
entry stored with `ttl = 0` is tested against the 30-second default. -/
theorem cache_get_after_set_ttl {α : Type} (cache : Cache α) (t0 t : Int)
    (key : String) (v : α) (ttl : Int) :
    getFromCache (setCacheWithTTL cache t0 key v ttl) t key =
      if t - t0 > (if ttl = 0 then 30 * second else ttl) then none else some v := by
  simp [getFromCache, setCacheWithTTL]

/-- The SQL text handed to the driver is exactly `appliedSQL` whenever
the query is issued at all. -/
theorem dispatched_eq (cancelAt : Option Nat) (sqlQuery : String)
    (limit offset : Int) (driver : String → DriverResult) (elapsedMs : Int) :
    (ExecuteQueryWithContext cancelAt sqlQuery limit offset driver elapsedMs).dispatched
      = if ctxCancelled cancelAt 0 then none
        else some (appliedSQL sqlQuery limit offset) := by
  unfold ExecuteQueryWithContext
  split <;> rfl

/-- Claim C2: for every `executeQuery` call, if `limit = 0` the SQL
string handed to the database driver is byte-identical to the input
`sql` regardless of the offset; if `limit = N > 0` it is the input with
` LIMIT N` appended, and additionally with ` OFFSET M` appended after
the limit clause when `offset = M > 0`. -/
theorem executeQuery_sql_shaping (cancelAt : Option Nat) (sql : String)
    (limit offset : Int) (driver : String → DriverResult) (ms : Int) :
    (limit = 0 → ∀ q,
        (ExecuteQueryWithContext cancelAt sql limit offset driver ms).dispatched = some q →
        q = sql)
  ∧ (limit > 0 → offset ≤ 0 → ∀ q,
        (ExecuteQueryWithContext cancelAt sql limit offset driver ms).dispatched = some q →
        q = sql ++ " LIMIT " ++ toString limit)
  ∧ (limit > 0 → offset > 0 → ∀ q,
        (ExecuteQueryWithContext cancelAt sql limit offset driver ms).dispatched = some q →
        q = sql ++ " LIMIT " ++ toString limit ++ " OFFSET " ++ toString offset) := by
  refine ⟨?_, ?_, ?_⟩
  · intro h0 q hq
    rw [dispatched_eq] at hq
    split at hq
    · exact absurd hq (by simp)
    · injection hq with hq
      rw [← hq]
      simp [appliedSQL, h0]
  · intro h1 h2 q hq
    rw [dispatched_eq] at hq
    split at hq
    · exact absurd hq (by simp)
    · injection hq with hq
      rw [← hq]
      simp [appliedSQL, h1, show ¬ offset > 0 by omega]
  · intro h1 h2 q hq
    rw [dispatched_eq] at hq
    split at hq
    · exact absurd hq (by simp)
    · injection hq with hq
      rw [← hq]
      simp [appliedSQL, h1, h2]

/-- Witness for C2: concrete calls with `limit = 0`, with a positive
limit alone, and with a positive limit and offset. -/
theorem executeQuery_sql_shaping_witness :
    ((0 : Int) = 0 ∧ ∀ q,
        (ExecuteQueryWithContext none "SELECT a FROM t" 0 7
          (fun _ => DriverResult.err "x") 0).dispatched = some q →
        q = "SELECT a FROM t")
  ∧ ((5 : Int) > 0 ∧ (0 : Int) ≤ 0 ∧ ∀ q,
        (ExecuteQueryWithContext none "SELECT a FROM t" 5 0
          (fun _ => DriverResult.err "x") 0).dispatched = some q →
        q = "SELECT a FROM t" ++ " LIMIT " ++ toString (5 : Int))
  ∧ ((5 : Int) > 0 ∧ (3 : Int) > 0 ∧ ∀ q,
        (ExecuteQueryWithContext none "SELECT a FROM t" 5 3
          (fun _ => DriverResult.err "x") 0).dispatched = some q →
        q = "SELECT a FROM t" ++ " LIMIT " ++ toString (5 : Int)
              ++ " OFFSET " ++ toString (3 : Int)) :=
  ⟨⟨rfl, (executeQuery_sql_shaping none "SELECT a FROM t" 0 7 _ 0).1 rfl⟩,
   ⟨by norm_num, by norm_num,
    (executeQuery_sql_shaping none "SELECT a FROM t" 5 0 _ 0).2.1
      (by norm_num) (by norm_num)⟩,
   ⟨by norm_num, by norm_num,
    (executeQuery_sql_shaping none "SELECT a FROM t" 5 3 _ 0).2.2
      (by norm_num) (by norm_num)⟩⟩

/-- Length of the hex rendering: two digits per byte. -/
theorem bytesHex_length (b : List Nat) : (bytesHex b).length = 2 * b.length := by
  induction b with
  | nil => rfl
  | cons v rest ih =>
    simp only [bytesHex, List.length_cons, ih]
    omega

/-- A hex digit byte is a lowercase hex character: a decimal digit or a
lowercase letter between `a` and `f`. -/
theorem hexDigitByte_range (n : Nat) (h : n < 16) :
    (48 ≤ hexDigitByte n ∧ hexDigitByte n ≤ 57)
      ∨ (97 ≤ hexDigitByte n ∧ hexDigitByte n ≤ 102) := by
  unfold hexDigitByte
  split <;> omega

/-- Every character of the hex rendering is a lowercase hex character. -/
theorem bytesHex_digits (b : List Nat) :
    ∀ c ∈ bytesHex b, (48 ≤ c ∧ c ≤ 57) ∨ (97 ≤ c ∧ c ≤ 102) := by
  induction b with
  | nil => simp [bytesHex]
  | cons v rest ih =>
    intro c hc
    simp only [bytesHex, List.mem_cons] at hc
    rcases hc with rfl | rfl | hc
    · exact hexDigitByte_range _ (Nat.mod_lt _ (by omega))
    · exact hexDigitByte_range _ (Nat.mod_lt _ (by omega))
    · exact ih c hc

/-- Claim C3: a 16-byte column value is rendered as the lowercase
hyphenated hex string in 8-4-4-4-12 grouping unless all 16 bytes are
zero or strictly more than 12 of them are printable ASCII, in which
cases — and for every byte string of any other length — the value is
decoded as text (the Go string of the same bytes). -/
theorem uuid_heuristic (b : List Nat) :
    (b.length = 16 → (∃ x ∈ b, x ≠ 0) → b.countP isPrintable ≤ 12 →
        decodeColumn (Value.bytes b) = Value.str (binaryToUUID b)
        ∧ (∃ h1 h2 h3 h4 h5 : List Nat,
            bytesHex b = h1 ++ h2 ++ h3 ++ h4 ++ h5
            ∧ h1.length = 8 ∧ h2.length = 4 ∧ h3.length = 4
            ∧ h4.length = 4 ∧ h5.length = 12
            ∧ binaryToUUID b = h1 ++ 45 :: h2 ++ 45 :: h3 ++ 45 :: h4 ++ 45 :: h5)
        ∧ (binaryToUUID b).length = 36
        ∧ (∀ c ∈ bytesHex b, (48 ≤ c ∧ c ≤ 57) ∨ (97 ≤ c ∧ c ≤ 102)))
  ∧ (b.length = 16 → (∀ x ∈ b, x = 0) →
        decodeColumn (Value.bytes b) = Value.str b)
  ∧ (b.length = 16 → 12 < b.countP isPrintable →
        decodeColumn (Value.bytes b) = Value.str b)
  ∧ (b.length ≠ 16 → decodeColumn (Value.bytes b) = Value.str b) := by
  refine ⟨?_, ?_, ?_, ?_⟩
  · intro h16 hnz hpr
    have hall : b.all (fun v => v == 0) = false := by
      rcases hnz with ⟨x, hx, hx0⟩
      rcases hb : b.all (fun v => v == 0) with _ | _
      · rfl
      · exact absurd (by simpa using List.all_eq_true.mp hb x hx) hx0
    have hlk : looksLikeUUID b = true := by
      simp only [looksLikeUUID, h16, hall]
      simp [Nat.not_lt.mpr hpr]
    have hxlen : (bytesHex b).length = 32 := by rw [bytesHex_length, h16]
    refine ⟨by simp [decodeColumn, h16, hlk], ?_, ?_, bytesHex_digits b⟩
    · refine ⟨(bytesHex b).take 8, ((bytesHex b).drop 8).take 4,
        ((bytesHex b).drop 12).take 4, ((bytesHex b).drop 16).take 4,
        ((bytesHex b).drop 20).take 12, ?_, ?_, ?_, ?_, ?_, ?_, rfl⟩
      · have e1 : bytesHex b = (bytesHex b).take 8 ++ (bytesHex b).drop 8 :=
          (List.take_append_drop 8 (bytesHex b)).symm
        have e2 : (bytesHex b).drop 8
            = ((bytesHex b).drop 8).take 4 ++ (bytesHex b).drop 12 := by
          conv_lhs => rw [← List.take_append_drop 4 ((bytesHex b).drop 8)]
          rw [List.drop_drop]
        have e3 : (bytesHex b).drop 12
            = ((bytesHex b).drop 12).take 4 ++ (bytesHex b).drop 16 := by
          conv_lhs => rw [← List.take_append_drop 4 ((bytesHex b).drop 12)]
          rw [List.drop_drop]
        have e4 : (bytesHex b).drop 16
            = ((bytesHex b).drop 16).take 4 ++ (bytesHex b).drop 20 := by
          conv_lhs => rw [← List.take_append_drop 4 ((bytesHex b).drop 16)]
          rw [List.drop_drop]
        have e5 : (bytesHex b).drop 20 = ((bytesHex b).drop 20).take 12 :=
          (List.take_of_length_le (by simp [hxlen])).symm
        conv_lhs => rw [e1, e2, e3, e4, e5]
        simp [List.append_assoc]
      · simp [hxlen]
      · simp [hxlen]
      · simp [hxlen]
      · simp [hxlen]
      · simp [hxlen]
    · simp [binaryToUUID, hxlen]
  · intro h16 hz
    have hall : b.all (fun v => v == 0) = true :=
      List.all_eq_true.mpr (fun x hx => by simpa using hz x hx)
    have hlk : looksLikeUUID b = false := by
      simp [looksLikeUUID, h16, hall]
    simp [decodeColumn, hlk]
  · intro h16 hpr
    have hlk : looksLikeUUID b = false := by
      simp only [looksLikeUUID, h16]
      rcases b.all (fun v => v == 0) with _ | _ <;> simp [hpr]
    simp [decodeColumn, hlk]
  · intro h16
    simp [decodeColumn, h16]

/-- Witness for C3: the 16-byte value `550e8400-e29b-41d4-a716-446655440000`
is rendered as a UUID, and a 3-byte value is decoded as text. -/
theorem uuid_heuristic_witness :
    ([85, 14, 132, 0, 226, 155, 65, 212, 167, 22, 68, 102, 85, 68, 0, 0] : List Nat).length = 16
  ∧ (∃ x ∈ ([85, 14, 132, 0, 226, 155, 65, 212, 167, 22, 68, 102, 85, 68, 0, 0] : List Nat), x ≠ 0)
  ∧ ([85, 14, 132, 0, 226, 155, 65, 212, 167, 22, 68, 102, 85, 68, 0, 0] : List Nat).countP isPrintable ≤ 12
  ∧ decodeColumn (Value.bytes [85, 14, 132, 0, 226, 155, 65, 212, 167, 22, 68, 102, 85, 68, 0, 0])
      = Value.str (binaryToUUID [85, 14, 132, 0, 226, 155, 65, 212, 167, 22, 68, 102, 85, 68, 0, 0])
  ∧ decodeColumn (Value.bytes [104, 105, 33]) = Value.str [104, 105, 33] :=
  ⟨by decide, by decide, by decide,
   ((uuid_heuristic _).1 (by decide) (by decide) (by decide)).1,
   (uuid_heuristic _).2.2.2 (by decide)⟩

/-- Every row produced by a successful fetch loop has one value per
column. -/
theorem fetchRows_ok_shape (cancelAt : Option Nat) (cols : List String) :
    ∀ (raws : List (List Value)) (i : Nat) (out : List (List Value)),
      fetchRows cancelAt cols raws i = .ok out →
      ∀ row ∈ out, row.length = cols.length := by
  intro raws
  induction raws with
  | nil =>
    intro i out h row hrow
    simp only [fetchRows] at h
    injection h with h
    subst h
    simp at hrow
  | cons raw rest ih =>
    intro i out h row hrow
    simp only [fetchRows] at h
    split at h
    · exact absurd h (by simp)
    · split at h
      · exact absurd h (by simp)
      · rename_i row0 hscan
        split at h
        · exact absurd h (by simp)
        · rename_i rows0 hrest
          injection h with h
          subst h
          rcases List.mem_cons.mp hrow with rfl | hmem
          · unfold scanRow at hscan
            split at hscan
            · rename_i hlen
              injection hscan with hscan
              subst hscan
              simp [hlen]
            · exact absurd hscan (by simp)
          · exact ih (i + 1) rows0 hrest row hmem

/-- Claim C9: every successful `executeQuery` result has exactly one
value per column in every row, and both `rowsAffected` and `totalRows`
equal the number of rows in the result. -/
theorem query_result_shape (cancelAt : Option Nat) (sql : String)
    (limit offset : Int) (driver : String → DriverResult) (ms : Int)
    (res : QueryResult)
    (h : (ExecuteQueryWithContext cancelAt sql limit offset driver ms).response
          = .ok res) :
    (∀ row ∈ res.rows, row.length = res.columns.length)
  ∧ res.rowsAffected = Int.ofNat res.rows.length
  ∧ res.totalRows = Int.ofNat res.rows.length
  ∧ res.rowsAffected = res.totalRows := by
  unfold ExecuteQueryWithContext at h
  split at h
  · exact absurd h (by simp)
  · simp only at h
    unfold runDispatchedQuery at h
    split at h
    · split at h <;> exact absurd h (by simp)
    · rename_i r hdrv
      split at h
      · exact absurd h (by simp)
      · rename_i cols hcols
        split at h
        · exact absurd h (by simp)
        · rename_i rows hrows
          split at h
          · exact absurd h (by simp)
          · injection h with h
            subst h
            exact ⟨fetchRows_ok_shape cancelAt cols r.rawRows 0 rows hrows, rfl, rfl, rfl⟩

/-- Witness for C9: a concrete successful query with two columns and one
row. -/
theorem query_result_shape_witness :
    (ExecuteQueryWithContext none "SELECT 1" 0 0
        (fun _ => DriverResult.rows
          ⟨Except.ok ["a", "b"], [[Value.int 1, Value.bytes [104, 105]]], none⟩) 7).response
      = .ok { columns := ["a", "b"],
              rows := [[Value.int 1, Value.str [104, 105]]],
              rowsAffected := 1, executionTime := 7, totalRows := 1 }
  ∧ (∀ row ∈ ({ columns := ["a", "b"],
                rows := [[Value.int 1, Value.str [104, 105]]],
                rowsAffected := 1, executionTime := 7, totalRows := 1 } : QueryResult).rows,
        row.length = (["a", "b"] : List String).length) :=
  ⟨rfl,
   (query_result_shape none "SELECT 1" 0 0
      (fun _ => DriverResult.rows
        ⟨Except.ok ["a", "b"], [[Value.int 1, Value.bytes [104, 105]]], none⟩) 7
      { columns := ["a", "b"],
        rows := [[Value.int 1, Value.str [104, 105]]],
        rowsAffected := 1, executionTime := 7, totalRows := 1 } rfl).1⟩

/-- If the cancellation signal arrives at the i-th row of the fetch loop
and every earlier row scans cleanly, the loop reports the during-fetch
cancellation error. -/
theorem fetchRows_cancelled (cols : List String) :
    ∀ (raws : List (List Value)) (start i : Nat),
      i < raws.length →
      (∀ row ∈ raws.take i, row.length = cols.length) →
      fetchRows (some (2 + start + i)) cols raws start
        = .error ("query cancelled during fetch: " ++ contextCanceledMsg) := by
  intro raws
  induction raws with
  | nil =>
    intro start i hi
    simp at hi
  | cons raw rest ih =>
    intro start i hi htake
    cases i with
    | zero =>
      simp [fetchRows, ctxCancelled]
    | succ j =>
      have hlen : raw.length = cols.length := htake raw (by simp)
      have hscan : scanRow cols raw = .ok (raw.map decodeColumn) := by
        simp [scanRow, hlen]
      have hidx : 2 + start + (j + 1) = 2 + (start + 1) + j := by omega
      have hrec := ih (start + 1) j (by simpa using hi)
        (fun row hrow => htake row (by simp [hrow]))
      have hcancel : ctxCancelled (some (2 + (start + 1) + j)) (2 + start) = false := by
        simp only [ctxCancelled, decide_eq_false_iff_not]
        omega
      rw [hidx]
      simp only [fetchRows]
      rw [hcancel, hscan, hrec]
      simp

/-- Errors of a never-cancelled fetch loop all come from row scanning. -/
theorem fetchRows_none_error (cols : List String) :
    ∀ (raws : List (List Value)) (i : Nat) (e : String),
      fetchRows none cols raws i = .error e →
      ∃ x, e = "failed to scan row: " ++ x := by
  intro raws
  induction raws with
  | nil =>
    intro i e h
    exact absurd h (by simp [fetchRows])
  | cons raw rest ih =>
    intro i e h
    simp only [fetchRows, ctxCancelled] at h
    split at h
    · rename_i hguard
      exact absurd hguard (by simp)
    · split at h
      · rename_i e0 hscan
        injection h with h
        exact ⟨e0, h.symm⟩
      · split at h
        · rename_i e1 hrest
          injection h with h
          subst h
          exact ih (i + 1) e1 hrest
        · exact absurd h (by simp)

/-- The pattern-fits-in-the-prefix property of the marker test: appending
more text cannot change whether the pattern leads the string. -/
theorem strLeads_append (pat : List Char) :
    ∀ (s t : List Char), pat.length ≤ s.length →
      strLeads pat (s ++ t) = strLeads pat s := by
  induction pat with
  | nil => intro s t _; simp [strLeads]
  | cons p ps ih =>
    intro s t h
    cases s with
    | nil => simp at h
    | cons c cs =>
      have hstep : (c :: cs) ++ t = c :: (cs ++ t) := rfl
      rw [hstep]
      simp only [strLeads]
      rw [ih cs t (by simpa using h)]

/-- A message that starts with a cancellation-free text of at least the
marker's length never carries the cancellation marker. -/
theorem hasCancelMarker_concat (s x : String)
    (hlen : 15 ≤ s.data.length)
    (h : strLeads "query cancelled".data s.data = false) :
    hasCancelMarker (s ++ x) = false := by
  unfold hasCancelMarker
  have hd : (s ++ x).data = s.data ++ x.data := rfl
  rw [hd, strLeads_append _ _ _ (by
    have : ("query cancelled".data).length = 15 := by decide
    omega), h]

/-- Claim C6: a signalled cancellation is observed before issuing the
query and between successive row fetches, in either case producing an
error that carries the `query cancelled` marker, with distinct message
variants for cancelled-before-execution, cancelled-at-dispatch and
cancelled-during-fetch; errors of never-cancelled executions never carry
the marker. -/
theorem cancellation_observed (sql : String) (limit offset : Int)
    (driver : String → DriverResult) (ms : Int) :
    (ExecuteQueryWithContext (some 0) sql limit offset driver ms).response
        = .error ("query cancelled before execution: " ++ contextCanceledMsg)
  ∧ (∀ e, driver (appliedSQL sql limit offset) = DriverResult.err e →
        (ExecuteQueryWithContext (some 1) sql limit offset driver ms).response
          = .error ("query cancelled: " ++ contextCanceledMsg))
  ∧ (∀ r cols i, driver (appliedSQL sql limit offset) = DriverResult.rows r →
        r.columnsResult = .ok cols → i < r.rawRows.length →
        (∀ row ∈ r.rawRows.take i, row.length = cols.length) →
        (ExecuteQueryWithContext (some (2 + i)) sql limit offset driver ms).response
          = .error ("query cancelled during fetch: " ++ contextCanceledMsg))
  ∧ (hasCancelMarker ("query cancelled before execution: " ++ contextCanceledMsg) = true
     ∧ hasCancelMarker ("query cancelled: " ++ contextCanceledMsg) = true
     ∧ hasCancelMarker ("query cancelled during fetch: " ++ contextCanceledMsg) = true
     ∧ ("query cancelled before execution: " ++ contextCanceledMsg)
         ≠ ("query cancelled: " ++ contextCanceledMsg)
     ∧ ("query cancelled before execution: " ++ contextCanceledMsg)
         ≠ ("query cancelled during fetch: " ++ contextCanceledMsg)
     ∧ ("query cancelled: " ++ contextCanceledMsg)
         ≠ ("query cancelled during fetch: " ++ contextCanceledMsg))
  ∧ (∀ e, (ExecuteQueryWithContext none sql limit offset driver ms).response = .error e →
        hasCancelMarker e = false) := by
  refine ⟨rfl, ?_, ?_, by decide, ?_⟩
  · intro e hd
    simp [ExecuteQueryWithContext, runDispatchedQuery, ctxCancelled, hd]
  · intro r cols i hdrv hcols hi htake
    have hc0 : ctxCancelled (some (2 + i)) 0 = false := by
      simp only [ctxCancelled, decide_eq_false_iff_not]
      omega
    have hfetch : fetchRows (some (2 + i)) cols r.rawRows 0
        = .error ("query cancelled during fetch: " ++ contextCanceledMsg) := by
      have h20 : 2 + i = 2 + 0 + i := by omega
      rw [h20]
      exact fetchRows_cancelled cols r.rawRows 0 i hi htake
    simp [ExecuteQueryWithContext, runDispatchedQuery, hc0, hdrv, hcols, hfetch]
  · intro e he
    have hc0 : ctxCancelled none 0 = false := rfl
    simp only [ExecuteQueryWithContext, hc0, Bool.false_eq_true, if_false] at he
    unfold runDispatchedQuery at he
    split at he
    · rename_i e0 hdrv
      rw [show ctxCancelled none 1 = false from rfl] at he
      simp only [Bool.false_eq_true, if_false, Except.error.injEq] at he
      rw [← he]
      exact hasCancelMarker_concat _ e0 (by decide) (by decide)
    · rename_i r hdrv
      split at he
      · rename_i e0 hcols
        simp only [Except.error.injEq] at he
        rw [← he]
        exact hasCancelMarker_concat _ e0 (by decide) (by decide)
      · rename_i cols hcols
        split at he
        · rename_i fe hfetch
          simp only [Except.error.injEq] at he
          rcases fetchRows_none_error cols r.rawRows 0 fe hfetch with ⟨x, rfl⟩
          rw [← he]
          exact hasCancelMarker_concat _ x (by decide) (by decide)
        · rename_i rows hfetch
          split at he
          · rename_i e0 hfin
            simp only [Except.error.injEq] at he
            rw [← he]
            exact hasCancelMarker_concat _ e0 (by decide) (by decide)
          · exact absurd he (by simp)

/-- Witness for C6: cancellation observed at each of the three points on
concrete runs. -/
theorem cancellation_observed_witness :
    (ExecuteQueryWithContext (some 0) "SELECT 1" 0 0
        (fun _ => DriverResult.err "boom") 0).response
      = .error ("query cancelled before execution: " ++ contextCanceledMsg)
  ∧ (ExecuteQueryWithContext (some 1) "SELECT 1" 0 0
        (fun _ => DriverResult.err "boom") 0).response
      = .error ("query cancelled: " ++ contextCanceledMsg)
  ∧ (1 < ([[Value.int 1], [Value.int 2]] : List (List Value)).length
     ∧ (ExecuteQueryWithContext (some (2 + 1)) "SELECT 1" 0 0
          (fun _ => DriverResult.rows
            ⟨Except.ok ["a"], [[Value.int 1], [Value.int 2]], none⟩) 0).response
        = .error ("query cancelled during fetch: " ++ contextCanceledMsg)) :=
  ⟨(cancellation_observed "SELECT 1" 0 0 (fun _ => DriverResult.err "boom") 0).1,
   (cancellation_observed "SELECT 1" 0 0 (fun _ => DriverResult.err "boom") 0).2.1
     "boom" rfl,
   by decide,
   (cancellation_observed "SELECT 1" 0 0
      (fun _ => DriverResult.rows
        ⟨Except.ok ["a"], [[Value.int 1], [Value.int 2]], none⟩) 0).2.2.1
     ⟨Except.ok ["a"], [[Value.int 1], [Value.int 2]], none⟩ ["a"] 1
     rfl rfl (by decide) (by decide)⟩

/-- Deleting a key removes every binding of that key. -/
theorem mapLookup_delete_self {α : Type} (m : List (String × α)) (k : String) :
    mapLookup (mapDelete m k) k = none := by
  induction m with
  | nil => rfl
  | cons p rest ih =>
    rcases p with ⟨k2, v⟩
    have ih2 : mapLookup (List.filter (fun p => !decide (p.1 = k)) rest) k = none := by
      simpa [mapDelete] using ih
    by_cases hk : k2 = k
    · simpa [mapDelete, List.filter_cons, hk] using ih2
    · have hcond : (!decide (k2 = k)) = true := by simp [hk]
      simp only [mapDelete, List.filter_cons] at ih2 ⊢
      simp [hcond, mapLookup, hk]
      exact ih2

/-- Deleting one key leaves lookups of other keys unchanged. -/
theorem mapLookup_delete_other {α : Type} (m : List (String × α)) (k k' : String)
    (h : k' ≠ k) : mapLookup (mapDelete m k) k' = mapLookup m k' := by
  induction m with
  | nil => rfl
  | cons p rest ih =>
    rcases p with ⟨k2, v⟩
    have ih2 : mapLookup (List.filter (fun p => !decide (p.1 = k)) rest) k'
        = mapLookup rest k' := by
      simpa [mapDelete] using ih
    by_cases hk : k2 = k
    · subst hk
      simp [mapDelete, List.filter_cons, mapLookup]
      rw [if_neg (fun hh => h hh.symm)]
      exact ih2
    · have hcond : (!decide (k2 = k)) = true := by simp [hk]
      simp [mapDelete, List.filter_cons, hcond, mapLookup]
      rw [ih2]

/-- Claim C4: every `executeQuery` call that reaches execution registers
the running-query record (cancellation handle plus SQL text) under the
caller-supplied request id before the query is issued, regardless of the
eventual outcome, and the record is removed unconditionally when the
call returns by any path, so no record outlives its call. -/
theorem registry_lifecycle (connections : List (String × Nat)) (running : RunningQueries)
    (rid : String) (decoded : Except String QueryRequest) (ctxId : Nat)
    (cancelAt : Option Nat) (driver : String → DriverResult) (ms : Int) :
    (∀ q, QueryEvent.issue q ∈
        (handleExecuteQuery connections running rid decoded ctxId cancelAt driver ms).events →
      ∃ s, (handleExecuteQuery connections running rid decoded ctxId cancelAt driver ms).events.head?
        = some (QueryEvent.register rid s))
  ∧ (∀ req h, decoded = Except.ok req →
      mapLookup connections req.connectionId = some h →
      QueryEvent.register rid req.sql ∈
          (handleExecuteQuery connections running rid decoded ctxId cancelAt driver ms).events
        ∧ (handleExecuteQuery connections running rid decoded ctxId cancelAt driver ms).events.getLast?
            = some (QueryEvent.deregister rid)
        ∧ mapLookup (handleExecuteQuery connections running rid decoded ctxId cancelAt driver ms).finalQueries rid
            = none
        ∧ (∀ k, k ≠ rid →
            mapLookup (handleExecuteQuery connections running rid decoded ctxId cancelAt driver ms).finalQueries k
              = mapLookup running k))
  ∧ (mapLookup running rid = none →
      mapLookup (handleExecuteQuery connections running rid decoded ctxId cancelAt driver ms).finalQueries rid
        = none) := by
  refine ⟨?_, ?_, ?_⟩
  · intro q hq
    cases decoded with
    | error e => simp [handleExecuteQuery] at hq
    | ok req =>
      cases hconn : mapLookup connections req.connectionId with
      | none => simp [handleExecuteQuery, hconn] at hq
      | some c =>
        exact ⟨req.sql, by simp [handleExecuteQuery, hconn]⟩
  · intro req h hdec hconn
    subst hdec
    simp only [handleExecuteQuery, hconn]
    refine ⟨by simp, ?_, mapLookup_delete_self _ _, ?_⟩
    · cases hd : (ExecuteQueryWithContext cancelAt req.sql req.limit req.offset driver ms).dispatched with
      | none => rfl
      | some q => rfl
    · intro k hk
      rw [mapLookup_delete_other _ _ _ hk]
      simp only [mapInsert, mapLookup]
      rw [if_neg (fun hh => hk hh.symm)]
  · intro hnone
    cases decoded with
    | error e => simpa [handleExecuteQuery] using hnone
    | ok req =>
      cases hconn : mapLookup connections req.connectionId with
      | none => simpa [handleExecuteQuery, hconn] using hnone
      | some c => simp [handleExecuteQuery, hconn, mapLookup_delete_self]

/-- Witness for C4: a concrete call on a registered connection with an
initially empty registry registers, issues and deregisters, and leaves
no record behind. -/
theorem registry_lifecycle_witness :
    ((Except.ok ⟨"c1", "SELECT 1", 0, 0⟩ : Except String QueryRequest)
        = Except.ok ⟨"c1", "SELECT 1", 0, 0⟩)
  ∧ mapLookup [("c1", 3)] (QueryRequest.connectionId ⟨"c1", "SELECT 1", 0, 0⟩) = some 3
  ∧ QueryEvent.register "r1" (QueryRequest.sql ⟨"c1", "SELECT 1", 0, 0⟩) ∈
      (handleExecuteQuery [("c1", 3)] [] "r1" (Except.ok ⟨"c1", "SELECT 1", 0, 0⟩) 5 none
        (fun _ => DriverResult.err "boom") 0).events
  ∧ mapLookup (handleExecuteQuery [("c1", 3)] [] "r1" (Except.ok ⟨"c1", "SELECT 1", 0, 0⟩) 5 none
        (fun _ => DriverResult.err "boom") 0).finalQueries "r1" = none :=
  ⟨rfl, rfl,
   ((registry_lifecycle [("c1", 3)] [] "r1" (Except.ok ⟨"c1", "SELECT 1", 0, 0⟩) 5 none
      (fun _ => DriverResult.err "boom") 0).2.1 ⟨"c1", "SELECT 1", 0, 0⟩ 3 rfl rfl).1,
   ((registry_lifecycle [("c1", 3)] [] "r1" (Except.ok ⟨"c1", "SELECT 1", 0, 0⟩) 5 none
      (fun _ => DriverResult.err "boom") 0).2.1 ⟨"c1", "SELECT 1", 0, 0⟩ 3 rfl rfl).2.2.1⟩

/-- Claim C5: a `cancelQuery` for an unknown request id yields an error
response saying the query was not found or already completed, never a
success; for a known id the matching context's cancel function is
invoked and the call returns success. -/
theorem cancel_query_response (running : RunningQueries) (cancelled : List Nat)
    (rid : String) :
    (mapLookup running rid = none →
        (handleRequestCancelQuery running cancelled (Except.ok rid)).1
          = RPCOutcome.failure InternalError ("query not found or already completed: " ++ rid)
        ∧ (handleRequestCancelQuery running cancelled (Except.ok rid)).1 ≠ RPCOutcome.success)
  ∧ (∀ qc, mapLookup running rid = some qc →
        (handleRequestCancelQuery running cancelled (Except.ok rid)).1 = RPCOutcome.success
        ∧ (handleRequestCancelQuery running cancelled (Except.ok rid)).2
            = qc.ctxId :: cancelled) := by
  constructor
  · intro hnone
    constructor <;> simp [handleRequestCancelQuery, handleCancelQuery, hnone]
  · intro qc hsome
    constructor <;> simp [handleRequestCancelQuery, handleCancelQuery, hsome]

/-- Witness for C5: a cancel on an empty registry errors with the
not-found message, and a cancel on a registered id succeeds and cancels
context 5. -/
theorem cancel_query_response_witness :
    (mapLookup ([] : RunningQueries) "r9" = none
     ∧ (handleRequestCancelQuery [] [] (Except.ok "r9")).1
         = RPCOutcome.failure InternalError ("query not found or already completed: " ++ "r9"))
  ∧ (mapLookup [("r9", (⟨5, "SELECT 1"⟩ : queryContext))] "r9"
        = some (⟨5, "SELECT 1"⟩ : queryContext)
     ∧ (handleRequestCancelQuery [("r9", ⟨5, "SELECT 1"⟩)] [] (Except.ok "r9")).1
         = RPCOutcome.success
     ∧ (handleRequestCancelQuery [("r9", ⟨5, "SELECT 1"⟩)] [] (Except.ok "r9")).2
         = (⟨5, "SELECT 1"⟩ : queryContext).ctxId :: []) :=
  ⟨⟨rfl, ((cancel_query_response [] [] "r9").1 rfl).1⟩,
   ⟨rfl, (cancel_query_response [("r9", ⟨5, "SELECT 1"⟩)] [] "r9").2 ⟨5, "SELECT 1"⟩ rfl⟩⟩

/-- The fan-out never produces a binding for a deny-listed schema name. -/
theorem fanout_no_system (listTables : String → Except String (List Table))
    (s : String) (hs : systemDatabases.contains s = true) :
    ∀ dbs, mapLookup (listAllTablesFanout listTables dbs) s = none := by
  intro dbs
  induction dbs with
  | nil => rfl
  | cons db rest ih =>
    simp only [listAllTablesFanout]
    by_cases hc : systemDatabases.contains db.name = true
    · rw [if_pos hc]
      exact ih
    · rw [if_neg hc]
      cases hlt : listTables db.name with
      | error e => exact ih
      | ok ts =>
        have hne : db.name ≠ s := fun hh => hc (hh ▸ hs)
        simp only [mapLookup]
        rw [if_neg hne]
        exact ih

/-- When listing one schema's tables fails, the fan-out is the same
aggregate with that schema's binding removed. -/
theorem fanout_error_filter (d : String) (e : String)
    (listTables g : String → Except String (List Table))
    (hlt : listTables d = .error e) (hagree : ∀ x, x ≠ d → listTables x = g x) :
    ∀ dbs, listAllTablesFanout listTables dbs
      = (listAllTablesFanout g dbs).filter (fun p => !decide (p.1 = d)) := by
  intro dbs
  induction dbs with
  | nil => rfl
  | cons db rest ih =>
    simp only [listAllTablesFanout]
    by_cases hc : systemDatabases.contains db.name = true
    · rw [if_pos hc, if_pos hc]
      exact ih
    · rw [if_neg hc, if_neg hc]
      by_cases hd : db.name = d
      · rw [hd, hlt]
        cases hg : g d with
        | error e2 => exact ih
        | ok ts =>
          rw [List.filter_cons, if_neg (by simp)]
          exact ih
      · have hsame : listTables db.name = g db.name := hagree _ hd
        rw [hsame]
        cases hg : g db.name with
        | error e2 => exact ih
        | ok ts =>
          rw [List.filter_cons, if_pos (by simp [hd])]
          rw [ih]

/-- Claim C7: on a known connection (and a cache miss), `listAllTables`
succeeds with the fan-out aggregate; the aggregate never contains a
deny-listed system schema even when `listDatabases` reports one, and a
failure of `listTables` for one non-system schema only removes that
schema from the aggregate while the call still succeeds. -/
theorem list_all_tables_tolerant (cache : Cache (List (String × List Table)))
    (now : Int) (connectionId : String) (connections : List (String × Nat))
    (h : Nat) (dbs : List Database)
    (listTables : String → Except String (List Table))
    (hcache : getFromCache cache now ("listAllTables:" ++ connectionId) = none)
    (hconn : mapLookup connections connectionId = some h) :
    (handleListAllTables cache now (Except.ok connectionId) connections
        (Except.ok dbs) listTables).1
      = .ok (listAllTablesFanout listTables dbs)
  ∧ (∀ s, systemDatabases.contains s = true →
      mapLookup (listAllTablesFanout listTables dbs) s = none)
  ∧ (∀ g d e, systemDatabases.contains d = false →
      listTables d = .error e → (∀ x, x ≠ d → listTables x = g x) →
      listAllTablesFanout listTables dbs
        = (listAllTablesFanout g dbs).filter (fun p => !decide (p.1 = d))) := by
  refine ⟨?_, ?_, ?_⟩
  · simp [handleListAllTables, hcache, hconn]
  · intro s hs
    exact fanout_no_system listTables s hs dbs
  · intro g d e _ hlt hagree
    exact fanout_error_filter d e listTables g hlt hagree dbs

/-- Witness for C7: three reported schemas — a system one, a readable one
and one whose table listing fails — produce a successful aggregate that
contains only the readable schema. -/
theorem list_all_tables_tolerant_witness :
    getFromCache (Cache.empty (List (String × List Table))) 0 ("listAllTables:" ++ "c1") = none
  ∧ mapLookup [("c1", 3)] "c1" = some 3
  ∧ (handleListAllTables (Cache.empty (List (String × List Table))) 0 (Except.ok "c1")
        [("c1", 3)] (Except.ok [⟨"mysql"⟩, ⟨"app"⟩, ⟨"bad"⟩])
        (fun d => if d = "bad" then Except.error "denied"
                  else Except.ok [⟨d, 1, "InnoDB", 0, 0⟩])).1
      = .ok (listAllTablesFanout
          (fun d => if d = "bad" then Except.error "denied"
                    else Except.ok [⟨d, 1, "InnoDB", 0, 0⟩])
          [⟨"mysql"⟩, ⟨"app"⟩, ⟨"bad"⟩])
  ∧ mapLookup (listAllTablesFanout
        (fun d => if d = "bad" then Except.error "denied"
                  else Except.ok [⟨d, 1, "InnoDB", 0, 0⟩])
        [⟨"mysql"⟩, ⟨"app"⟩, ⟨"bad"⟩]) "mysql" = none :=
  ⟨rfl, rfl,
   (list_all_tables_tolerant (Cache.empty _) 0 "c1" [("c1", 3)] 3
      [⟨"mysql"⟩, ⟨"app"⟩, ⟨"bad"⟩]
      (fun d => if d = "bad" then Except.error "denied"
                else Except.ok [⟨d, 1, "InnoDB", 0, 0⟩]) rfl rfl).1,
   (list_all_tables_tolerant (Cache.empty _) 0 "c1" [("c1", 3)] 3
      [⟨"mysql"⟩, ⟨"app"⟩, ⟨"bad"⟩]
      (fun d => if d = "bad" then Except.error "denied"
                else Except.ok [⟨d, 1, "InnoDB", 0, 0⟩]) rfl rfl).2.1 "mysql" (by decide)⟩

/-- Counterexample to claim C8 as stated: a concrete parameter-decode
failure on `connect` is answered with the internal-error code, which is
distinct from the reserved invalid-params code the claim requires. -/
theorem invalid_params_code_counterexample :
    (handleRequestConnect [] (Except.error "unexpected end of JSON input") ⟨none, none⟩ 0).1
      = RPCOutcome.failure InternalError ("invalid parameters: " ++ "unexpected end of JSON input")
  ∧ InternalError = -32603 ∧ InvalidParams = -32602
  ∧ InternalError ≠ InvalidParams :=
  ⟨rfl, rfl, rfl, by decide⟩

/-- Claim C8 (amended): a parameter-decode failure is answered with an
error carrying the internal-error code and the underlying decode message
prefixed by `invalid parameters: `; the reserved invalid-params code is
defined but unused by the dispatcher. -/
theorem decode_failure_internal_code (connections : List (String × Nat)) (e : String)
    (env : DialEnv) (newHandle : Nat) (running : RunningQueries) (cancelled : List Nat) :
    (handleRequestConnect connections (Except.error e) env newHandle).1
      = RPCOutcome.failure InternalError ("invalid parameters: " ++ e)
  ∧ (handleRequestCancelQuery running cancelled (Except.error e)).1
      = RPCOutcome.failure InternalError ("invalid parameters: " ++ e) :=
  ⟨rfl, rfl⟩

/-- Claim C10: a failed `connect` (unsupported driver type, dial failure,
or failed liveness ping) leaves the connection registry unchanged and
closes nothing; the prior handle is closed and replaced only after the
new handle has been opened and pinged successfully. -/
theorem connect_failure_atomicity (connections : List (String × Nat))
    (config : ConnectionConfig) (env : DialEnv) (newHandle : Nat) :
    (∀ e, NewConnection config env newHandle = .error e →
        (handleConnect connections (Except.ok config) env newHandle).connections = connections
        ∧ (handleConnect connections (Except.ok config) env newHandle).closed = []
        ∧ (handleConnect connections (Except.ok config) env newHandle).result = .error e)
  ∧ (config.type ≠ "mysql" → ∃ e, NewConnection config env newHandle = .error e)
  ∧ (∀ e, env.openError = some e → ∃ e2, NewConnection config env newHandle = .error e2)
  ∧ (∀ e, env.openError = none → env.pingError = some e →
        ∃ e2, NewConnection config env newHandle = .error e2)
  ∧ (∀ h, NewConnection config env newHandle = .ok h →
        (handleConnect connections (Except.ok config) env newHandle).result = .ok ()
        ∧ mapLookup (handleConnect connections (Except.ok config) env newHandle).connections config.id
            = some h
        ∧ (handleConnect connections (Except.ok config) env newHandle).closed
            = (match mapLookup connections config.id with
               | some oldHandle => [oldHandle]
               | none => []))
  ∧ ((handleConnect connections (Except.ok config) env newHandle).closed ≠ [] →
        (handleConnect connections (Except.ok config) env newHandle).result = .ok ()) := by
  refine ⟨?_, ?_, ?_, ?_, ?_, ?_⟩
  · intro e he
    exact ⟨by simp [handleConnect, he], by simp [handleConnect, he], by simp [handleConnect, he]⟩
  · intro ht
    exact ⟨"unsupported database type: " ++ config.type, by simp [NewConnection, ht]⟩
  · intro e he
    by_cases ht : config.type = "mysql"
    · exact ⟨"failed to connect to MySQL: " ++ e ++ ". Check that host \x27"
        ++ config.host ++ "\x27 and port " ++ toString config.port ++ " are correct",
        by simp [NewConnection, ht, he]⟩
    · exact ⟨"unsupported database type: " ++ config.type, by simp [NewConnection, ht]⟩
  · intro e ho hp
    by_cases ht : config.type = "mysql"
    · exact ⟨classifyPingError e (effHost config.host) config.port
        config.username config.database, by simp [NewConnection, ht, ho, hp]⟩
    · exact ⟨"unsupported database type: " ++ config.type, by simp [NewConnection, ht]⟩
  · intro h hok
    by_cases ht : config.type = "mysql"
    · cases ho : env.openError with
      | some e => simp [NewConnection, ht, ho] at hok
      | none =>
        cases hp : env.pingError with
        | some e => simp [NewConnection, ht, ho, hp] at hok
        | none =>
          have hnc : NewConnection config env newHandle = .ok newHandle := by
            simp [NewConnection, ht, ho, hp]
          have hn : h = newHandle := by
            rw [hnc] at hok
            injection hok with hh
            exact hh.symm
          refine ⟨by simp [handleConnect, hnc], ?_, by simp [handleConnect, hnc]⟩
          rw [hn]
          simp [handleConnect, hnc, mapInsert, mapLookup]
    · simp [NewConnection, ht] at hok
  · intro hne
    cases hnc : NewConnection config env newHandle with
    | error e =>
      exact absurd (by simp [handleConnect, hnc]) hne
    | ok h => simp [handleConnect, hnc]

/-- Witness for C10: an unsupported driver type leaves the registry
untouched and closes nothing, while a successful dial and ping replaces
and closes the prior handle for the same id. -/
theorem connect_failure_atomicity_witness :
    NewConnection ⟨"c1", "n", "postgres", "h", 1, "u", "p", "d", false⟩ ⟨none, none⟩ 9
      = .error ("unsupported database type: " ++ "postgres")
  ∧ (handleConnect [("c1", 3)]
      (Except.ok ⟨"c1", "n", "postgres", "h", 1, "u", "p", "d", false⟩) ⟨none, none⟩ 9).connections
      = [("c1", 3)]
  ∧ (handleConnect [("c1", 3)]
      (Except.ok ⟨"c1", "n", "postgres", "h", 1, "u", "p", "d", false⟩) ⟨none, none⟩ 9).closed
      = []
  ∧ NewConnection ⟨"c1", "n", "mysql", "h", 1, "u", "p", "d", false⟩ ⟨none, none⟩ 9 = .ok 9
  ∧ (handleConnect [("c1", 3)]
      (Except.ok ⟨"c1", "n", "mysql", "h", 1, "u", "p", "d", false⟩) ⟨none, none⟩ 9).result
      = .ok ()
  ∧ mapLookup (handleConnect [("c1", 3)]
      (Except.ok ⟨"c1", "n", "mysql", "h", 1, "u", "p", "d", false⟩) ⟨none, none⟩ 9).connections "c1"
      = some 9
  ∧ (handleConnect [("c1", 3)]
      (Except.ok ⟨"c1", "n", "mysql", "h", 1, "u", "p", "d", false⟩) ⟨none, none⟩ 9).closed
      = [3] :=
  ⟨rfl,
   ((connect_failure_atomicity [("c1", 3)] ⟨"c1", "n", "postgres", "h", 1, "u", "p", "d", false⟩
      ⟨none, none⟩ 9).1 _ rfl).1,
   ((connect_failure_atomicity [("c1", 3)] ⟨"c1", "n", "postgres", "h", 1, "u", "p", "d", false⟩
      ⟨none, none⟩ 9).1 _ rfl).2.1,
   rfl,
   ((connect_failure_atomicity [("c1", 3)] ⟨"c1", "n", "mysql", "h", 1, "u", "p", "d", false⟩
      ⟨none, none⟩ 9).2.2.2.2.1 9 rfl).1,
   ((connect_failure_atomicity [("c1", 3)] ⟨"c1", "n", "mysql", "h", 1, "u", "p", "d", false⟩
      ⟨none, none⟩ 9).2.2.2.2.1 9 rfl).2.1,
   ((connect_failure_atomicity [("c1", 3)] ⟨"c1", "n", "mysql", "h", 1, "u", "p", "d", false⟩
      ⟨none, none⟩ 9).2.2.2.2.1 9 rfl).2.2⟩

end DataWarden
